import Mathlib

/-!
Verification of the LatestBrowsingHistory pipeline
(src/LatestBrowsingHistory/LatestBrowsingHistory.cpp).

The development shallowly embeds the program: pure helpers become Lean
functions; the file-system effects of one extraction are explicit state
passing over a `FileSys` record; the outcomes of the fallible external
calls (GetTempPathW, GetTempFileNameW, std::filesystem::copy_file,
sqlite3_open16, sqlite3_prepare_v2) are an environment record `StoreEnv`
of Booleans, one per call site, so that every control path of the C++
source is a reachable branch of the Lean function.
-/

namespace BrowsingHistory

/-- One row produced by the join query
`SELECT u.url, v.visit_time FROM urls u JOIN visits v ON u.id = v.url`.
`url = none` models a SQL NULL in the url column, for which
`sqlite3_column_text` returns a NULL pointer. -/
structure Row where
  url : Option String
  visitTime : Int
deriving DecidableEq

/-- `ConvertWebKitToUnixTime` (source lines 17-20):
`webkitTime / 1000000 - 11644473600LL`.  C++ `int64_t` division truncates
toward zero, which is `Int.tdiv`. -/
def ConvertWebKitToUnixTime (webkitTime : Int) : Int :=
  Int.tdiv webkitTime 1000000 - 11644473600

/-- `ConvertUtf8ToWide` (source lines 23-42).  `MultiByteToWideChar` is
called with flags 0, so invalid byte sequences are replaced rather than
rejected and the call cannot fail on any input text; at the level of
abstract text (Lean `String`) the conversion is the identity, and the
source's empty-input short-circuit also returns the identity (empty). -/
def ConvertUtf8ToWide (utf8Str : String) : String :=
  utf8Str

/-- Decimal digit character, as produced by `wcsftime`. -/
def digitChar (n : Nat) : Char :=
  Char.ofNat (48 + n % 10)

/-- Two-digit zero-padded decimal field (`%m`, `%d`, `%H`, `%M`, `%S`). -/
def pad2 (n : Nat) : String :=
  String.mk [digitChar (n / 10), digitChar n]

/-- Four-digit year field (`%Y`); every year reachable from the valid
`gmtime_s` range 1970..3001 has exactly four decimal digits. -/
def pad4 (n : Nat) : String :=
  String.mk [digitChar (n / 1000), digitChar (n / 100), digitChar (n / 10), digitChar n]

/-- Gregorian calendar date from a count of days since 1970-01-01
(Howard Hinnant's civil-from-days algorithm, the computation performed by
the CRT `gmtime_s`).  Returns (year, month, day). -/
def civilFromDays (z : Nat) : Nat × Nat × Nat :=
  let z2 := z + 719468
  let era := z2 / 146097
  let doe := z2 % 146097
  let yoe := (doe - doe / 1460 + doe / 36524 - doe / 146096) / 365
  let y := yoe + era * 400
  let doy := doe - (365 * yoe + yoe / 4 - yoe / 100)
  let mp := (5 * doy + 2) / 153
  let d := doy - (153 * mp + 2) / 5 + 1
  let m := if mp < 10 then mp + 3 else mp - 9
  (if m ≤ 2 then y + 1 else y, m, d)

/-- Largest `__time64_t` accepted by MSVC `gmtime_s`:
23:59:59, January 18, 3001 UTC (`_MAX__TIME64_T`); larger values, and all
negative values, make `gmtime_s` fail with `EINVAL`. -/
def maxTime64 : Int := 32536771199

/-- Rendering of one calendar time in the `L"%Y-%m-%d %H:%M:%S"` format
passed to `wcsftime` (source line 65). -/
def renderUTC (y mo d hh mi ss : Nat) : String :=
  pad4 y ++ "-" ++ pad2 mo ++ "-" ++ pad2 d ++ " " ++
    pad2 hh ++ ":" ++ pad2 mi ++ ":" ++ pad2 ss

/-- `FormatUnixTimeToUTC` (source lines 56-67): `gmtime_s` decomposes the
time into a UTC calendar time and fails (returning nonzero, upon which the
source returns the sentinel `L"Invalid time"`) exactly on inputs outside
`[0, _MAX__TIME64_T]`; otherwise the fields are formatted by `wcsftime`. -/
def FormatUnixTimeToUTC (unixTime : Int) : String :=
  if unixTime < 0 ∨ maxTime64 < unixTime then
    "Invalid time"
  else
    let t := unixTime.toNat
    let c := civilFromDays (t / 86400)
    renderUTC c.1 c.2.1 c.2.2 (t % 86400 / 3600) (t % 86400 % 3600 / 60) (t % 86400 % 60)

/-- Environment of one `PrintUrlsFromDatabase` invocation: the path passed
in, the success/failure outcome of each fallible external call, and the
contents of the store's row set as returned by the (unordered) join. -/
structure StoreEnv where
  path : String
  tempPathOk : Bool
  tempNameOk : Bool
  copyOk : Bool
  openOk : Bool
  prepareOk : Bool
  rows : List Row
deriving DecidableEq

/-- The file-system state relevant to one invocation: the source store
file (content and modification metadata) and the invocation's temporary
snapshot file (`none` = the file does not exist). -/
structure FileSys where
  sourceContent : String
  sourceMTime : Int
  temp : Option String
deriving DecidableEq

/-- `CopyDatabaseToTemp` (source lines 70-96).  `GetTempFileNameW` with
`uUnique = 0` creates an empty file on disk to reserve the unique name;
`std::filesystem::copy_file` then overwrites it with the source bytes.  On
a copy exception the source prints a diagnostic and returns `false`,
leaving the reserved (empty) temporary file in place.  Result:
(file system, diagnostics printed, return value). -/
def CopyDatabaseToTemp (env : StoreEnv) (fs : FileSys) : FileSys × List String × Bool :=
  if !env.tempPathOk then
    (fs, [], false)
  else if !env.tempNameOk then
    (fs, [], false)
  else if env.copyOk then
    ({ fs with temp := some fs.sourceContent }, [], true)
  else
    ({ fs with temp := some "" }, ["Failed to copy database: exception"], false)

/-- True iff the row is reported: `difftime(currentTime, visitTimeUnix) <=
timeRangeInSeconds` (source line 134).  Both operands are integral seconds
well inside the exact range of `double`, so `difftime` is exact
subtraction. -/
def matchesWindow (currentTime timeRangeInSeconds : Int) (r : Row) : Bool :=
  decide (currentTime - ConvertWebKitToUnixTime r.visitTime ≤ timeRangeInSeconds)

/-- The line printed for one matching row (source line 142). -/
def emitLine (r : Row) : String :=
  "URL: " ++ ConvertUtf8ToWide (r.url.getD "") ++ ", Visit Time (UTC): " ++
    FormatUnixTimeToUTC (ConvertWebKitToUnixTime r.visitTime)

/-- Ordering used by the query's `ORDER BY v.visit_time DESC`. -/
def rowGE (a b : Row) : Prop :=
  b.visitTime ≤ a.visitTime

instance : DecidableRel rowGE := fun a b =>
  inferInstanceAs (Decidable (b.visitTime ≤ a.visitTime))

instance : IsTotal Row rowGE :=
  ⟨fun a b => le_total b.visitTime a.visitTime⟩

instance : IsTrans Row rowGE :=
  ⟨fun _ _ _ h1 h2 => le_trans h2 h1⟩

/-- The row sequence produced by the prepared statement: the store's rows
in the query's `ORDER BY v.visit_time DESC` order. -/
def queryRows (rows : List Row) : List Row :=
  List.insertionSort rowGE rows

/-- The `sqlite3_step` loop (source lines 127-144).  For each row the
timestamp is decoded and tested first; for a matching row the url column
is read and passed to `ConvertUtf8ToWide`, whose `const std::string&`
parameter is constructed from the raw pointer.  When the column is SQL
NULL that pointer is NULL and `std::string` construction from NULL is
undefined behavior — in any real build an immediate crash — modelled as
the `true` abort flag, which discards the rest of the iteration.  Result:
(lines printed, aborted). -/
def processRows (currentTime timeRangeInSeconds : Int) : List Row → List String × Bool
  | [] => ([], false)
  | r :: rs =>
    if matchesWindow currentTime timeRangeInSeconds r then
      match r.url with
      | none => ([], true)
      | some _ =>
        let rest := processRows currentTime timeRangeInSeconds rs
        (emitLine r :: rest.1, rest.2)
    else
      processRows currentTime timeRangeInSeconds rs

/-- Observable outcome of one `PrintUrlsFromDatabase` invocation: final
file-system state, the `URL: ...` entry lines printed, the failure
diagnostics printed, and whether the process aborted (undefined behavior
crash) during the row loop. -/
structure RunResult where
  fs : FileSys
  entries : List String
  diag : List String
  crashed : Bool
deriving DecidableEq

/-- `PrintUrlsFromDatabase` (source lines 99-151), path by path:
copy failure → diagnostic, early return; open failure → diagnostic, early
return; prepare failure → diagnostic, `sqlite3_close`, early return;
otherwise the step loop runs and — only on this path, and only if the
loop did not abort — `std::filesystem::remove(tempDbPath)` is reached. -/
def PrintUrlsFromDatabase (env : StoreEnv) (currentTime timeRangeInSeconds : Int)
    (fs : FileSys) : RunResult :=
  let c := CopyDatabaseToTemp env fs
  if c.2.2 then
    if env.openOk then
      if env.prepareOk then
        let res := processRows currentTime timeRangeInSeconds (queryRows env.rows)
        if res.2 then
          ⟨c.1, res.1, c.2.1, true⟩
        else
          ⟨{ c.1 with temp := none }, res.1, c.2.1, false⟩
      else
        ⟨c.1, [], c.2.1 ++ ["Failed to prepare statement: " ++ env.path], false⟩
    else
      ⟨c.1, [], c.2.1 ++ ["Failed to open database: " ++ env.path], false⟩
  else
    ⟨c.1, [], c.2.1 ++ ["Failed to copy database to temporary file: " ++ env.path], false⟩

/-- Environment of one program run: the `SHGetFolderPathW` result (the
source maps failure to the empty string), the `std::time` value, and the
per-store environments for the Chrome and the Edge history paths. -/
structure WorldEnv where
  profilePath : String
  currentTime : Int
  chromeEnv : StoreEnv
  edgeEnv : StoreEnv

/-- Observable outcome of `wmain`: the exit status (`none` when the
process aborted inside a row loop and never returned), and each store's
extraction outcome (`none` when that extraction was never attempted). -/
structure WMainResult where
  exitCode : Option Int
  chrome : Option RunResult
  edge : Option RunResult
deriving DecidableEq

/-- `wmain` (source lines 154-183): on profile-path failure print a
diagnostic and return 1; otherwise run the two extractions sequentially
and return 0. -/
def wmain (w : WorldEnv) (fsChrome fsEdge : FileSys) : WMainResult :=
  let timeRangeInSeconds : Int := 10 * 60
  if w.profilePath = "" then
    ⟨some 1, none, none⟩
  else
    let r1 := PrintUrlsFromDatabase w.chromeEnv w.currentTime timeRangeInSeconds fsChrome
    if r1.crashed then
      ⟨none, some r1, none⟩
    else
      let r2 := PrintUrlsFromDatabase w.edgeEnv w.currentTime timeRangeInSeconds fsEdge
      if r2.crashed then
        ⟨none, some r1, some r2⟩
      else
        ⟨some 0, some r1, some r2⟩

/-- All five external calls of one extraction succeed. -/
def storeOk (env : StoreEnv) : Prop :=
  env.tempPathOk = true ∧ env.tempNameOk = true ∧ env.copyOk = true ∧
    env.openOk = true ∧ env.prepareOk = true

/-- Some stage of the extraction fails (copy stage, open, or prepare). -/
def storeFails (env : StoreEnv) : Prop :=
  env.tempPathOk = false ∨ env.tempNameOk = false ∨ env.copyOk = false ∨
    env.openOk = false ∨ env.prepareOk = false

instance (env : StoreEnv) : Decidable (storeOk env) :=
  inferInstanceAs (Decidable (env.tempPathOk = true ∧ env.tempNameOk = true ∧
    env.copyOk = true ∧ env.openOk = true ∧ env.prepareOk = true))

instance (env : StoreEnv) : Decidable (storeFails env) :=
  inferInstanceAs (Decidable (env.tempPathOk = false ∨ env.tempNameOk = false ∨
    env.copyOk = false ∨ env.openOk = false ∨ env.prepareOk = false))

/-- A store row whose url column is SQL NULL; its timestamp decodes to
unix second 1100. -/
def nullRow : Row := ⟨none, 11644474700000000⟩

/-- Nine well-formed rows; row `i` decodes to unix second `1000 + i`. -/
def goodRow (i : Nat) : Row :=
  ⟨some ("u" ++ toString i), 11644474600000000 + (i : Int) * 1000000⟩

/-- A store holding one NULL-url row and nine well-formed rows, all within
600 seconds of reference time 1500. -/
def c2Rows : List Row := nullRow :: (List.range 9).map goodRow

def c2Env : StoreEnv := ⟨"History", true, true, true, true, true, c2Rows⟩

def c2Fs : FileSys := ⟨"dbbytes", 7, none⟩

/-- Well-formed row decoding to unix second 900. -/
def c2wGoodRow : Row := ⟨some "a", 11644474500000000⟩

/-- NULL-url row decoding to unix second 800. -/
def c2wNullRow : Row := ⟨none, 11644474400000000⟩

def c2wEnv : StoreEnv := ⟨"History", true, true, true, true, true, [c2wNullRow, c2wGoodRow]⟩

/-- A store environment whose file copy fails (source path missing). -/
def c6FailEnv : StoreEnv := ⟨"Chrome\\History", true, true, false, true, true, []⟩

/-- A fully successful store environment with one well-formed row. -/
def c6OkEnv : StoreEnv := ⟨"Edge\\History", true, true, true, true, true, [c2wGoodRow]⟩

def c6World : WorldEnv := ⟨"C:\\Users\\u", 1000, c6FailEnv, c6OkEnv⟩

lemma tdiv_1000000_eq_ediv (a : Int) (h : 0 ≤ a) :
    Int.tdiv a 1000000 = a / 1000000 :=
  Int.tdiv_eq_ediv h (by norm_num)

lemma processRows_wellFormed (t w : Int) (l : List Row) (h : ∀ r ∈ l, r.url ≠ none) :
    processRows t w l = ((l.filter (matchesWindow t w)).map emitLine, false) := by
  induction l with
  | nil => simp [processRows]
  | cons r rs ih =>
    have hrs : ∀ x ∈ rs, x.url ≠ none := fun x hx => h x (List.mem_cons_of_mem _ hx)
    cases hu : r.url with
    | none => exact absurd hu (h r (List.mem_cons_self r rs))
    | some u =>
      by_cases hm : matchesWindow t w r = true
      · simp [processRows, hm, hu, ih hrs, List.filter_cons]
      · simp [processRows, hm, hu, ih hrs, List.filter_cons]

lemma CopyDatabaseToTemp_ok (env : StoreEnv) (fs : FileSys) (h : storeOk env) :
    CopyDatabaseToTemp env fs = ({ fs with temp := some fs.sourceContent }, [], true) := by
  obtain ⟨h1, h2, h3, _, _⟩ := h
  simp [CopyDatabaseToTemp, h1, h2, h3]

lemma PrintUrls_success (env : StoreEnv) (t w : Int) (fs : FileSys)
    (hok : storeOk env) (hwf : ∀ r ∈ env.rows, r.url ≠ none) :
    PrintUrlsFromDatabase env t w fs =
      ⟨{ fs with temp := none },
        ((queryRows env.rows).filter (matchesWindow t w)).map emitLine, [], false⟩ := by
  have hwf2 : ∀ r ∈ queryRows env.rows, r.url ≠ none := fun r hr =>
    hwf r ((List.perm_insertionSort rowGE env.rows).mem_iff.mp hr)
  obtain ⟨h1, h2, h3, h4, h5⟩ := hok
  simp [PrintUrlsFromDatabase, CopyDatabaseToTemp_ok env fs ⟨h1, h2, h3, h4, h5⟩, h4, h5,
    processRows_wellFormed t w _ hwf2]

lemma run_not_ok (env : StoreEnv) (t w : Int) (fs : FileSys) (h : ¬ storeOk env) :
    (PrintUrlsFromDatabase env t w fs).crashed = false ∧
      (PrintUrlsFromDatabase env t w fs).entries = [] ∧
      (PrintUrlsFromDatabase env t w fs).diag ≠ [] := by
  obtain ⟨p, b1, b2, b3, b4, b5, rows⟩ := env
  simp only [storeOk] at h
  cases b1 <;> cases b2 <;> cases b3 <;> cases b4 <;> cases b5 <;>
    simp_all [PrintUrlsFromDatabase, CopyDatabaseToTemp]

lemma storeFails_not_ok {env : StoreEnv} (h : storeFails env) : ¬ storeOk env := by
  rcases h with h | h | h | h | h <;> simp [storeOk, h]

lemma run_no_crash (env : StoreEnv) (t w : Int) (fs : FileSys)
    (hwf : ∀ r ∈ env.rows, r.url ≠ none) :
    (PrintUrlsFromDatabase env t w fs).crashed = false := by
  by_cases hok : storeOk env
  · rw [PrintUrls_success env t w fs hok hwf]
  · exact (run_not_ok env t w fs hok).1

lemma processRows_crash (t w : Int) (pre post : List Row) (r0 : Row)
    (hpre : ∀ r ∈ pre, r.url ≠ none) (h0 : r0.url = none)
    (hm : matchesWindow t w r0 = true) :
    processRows t w (pre ++ r0 :: post) =
      ((pre.filter (matchesWindow t w)).map emitLine, true) := by
  induction pre with
  | nil => simp [processRows, hm, h0]
  | cons r rs ih =>
    have hr := hpre r (List.mem_cons_self r rs)
    have hrs : ∀ x ∈ rs, x.url ≠ none := fun x hx => hpre x (List.mem_cons_of_mem _ hx)
    cases hu : r.url with
    | none => exact absurd hu hr
    | some u =>
      by_cases hmr : matchesWindow t w r = true
      · simp [processRows, hmr, hu, ih hrs, List.filter_cons]
      · simp [processRows, hmr, hu, ih hrs, List.filter_cons]

lemma copy_source_inv (env : StoreEnv) (fs : FileSys) :
    (CopyDatabaseToTemp env fs).1.sourceContent = fs.sourceContent ∧
      (CopyDatabaseToTemp env fs).1.sourceMTime = fs.sourceMTime := by
  simp only [CopyDatabaseToTemp]
  split
  · exact ⟨rfl, rfl⟩
  · split
    · exact ⟨rfl, rfl⟩
    · split
      · exact ⟨rfl, rfl⟩
      · exact ⟨rfl, rfl⟩

lemma run_source_inv (env : StoreEnv) (t w : Int) (fs : FileSys) :
    (PrintUrlsFromDatabase env t w fs).fs.sourceContent = fs.sourceContent ∧
      (PrintUrlsFromDatabase env t w fs).fs.sourceMTime = fs.sourceMTime := by
  obtain ⟨hc1, hc2⟩ := copy_source_inv env fs
  simp only [PrintUrlsFromDatabase]
  split <;> (try split) <;> (try split) <;> (try split) <;> exact ⟨hc1, hc2⟩

lemma queryRows_sorted (rows : List Row) : List.Pairwise rowGE (queryRows rows) :=
  List.sorted_insertionSort rowGE rows

lemma pad2_length (n : Nat) : (pad2 n).length = 2 := rfl

lemma pad4_length (n : Nat) : (pad4 n).length = 4 := rfl

lemma renderUTC_length (y mo d hh mi ss : Nat) : (renderUTC y mo d hh mi ss).length = 19 := by
  simp only [renderUTC, String.length_append, pad2_length, pad4_length]
  decide

/-- C1: the snapshot-cleanup invariant fails on the code.  Evaluating
`PrintUrlsFromDatabase` at concrete failing invocations: when the copy
succeeds but the sqlite open fails, when the prepare fails, and when the
copy itself fails after `GetTempFileNameW` reserved (and created) the
temporary name, the invocation returns with the temporary snapshot file
still on disk; only the fully successful invocation (last conjunct)
removes it. -/
theorem snapshot_leak_on_open_failure :
    (PrintUrlsFromDatabase ⟨"History", true, true, true, false, true, []⟩ 1000 600
        ⟨"dbbytes", 7, none⟩).fs.temp = some "dbbytes" ∧
      (PrintUrlsFromDatabase ⟨"History", true, true, true, true, false, []⟩ 1000 600
        ⟨"dbbytes", 7, none⟩).fs.temp = some "dbbytes" ∧
      (PrintUrlsFromDatabase ⟨"History", true, true, false, true, true, []⟩ 1000 600
        ⟨"dbbytes", 7, none⟩).fs.temp = some "" ∧
      (PrintUrlsFromDatabase ⟨"History", true, true, true, true, true, []⟩ 1000 600
        ⟨"dbbytes", 7, none⟩).fs.temp = none :=
  ⟨rfl, rfl, rfl, rfl⟩

/-- C2 counterexample: `c2Rows` is a store with one NULL-url row and nine
well-formed rows, all matching the window (reference time 1500, window
600).  The extraction does not emit nine entries: the query orders the
NULL row first (greatest timestamp), the NULL pointer is passed to
`std::string` construction, and the run aborts with zero entries. -/
theorem null_url_row_not_skipped :
    (PrintUrlsFromDatabase c2Env 1500 600 c2Fs).crashed = true ∧
      (PrintUrlsFromDatabase c2Env 1500 600 c2Fs).entries = [] :=
  ⟨rfl, rfl⟩

/-- C2 (amended): with all external calls succeeding, if the query order
splits as `pre ++ r0 :: post` where every row of `pre` has a readable url
and `r0` has a NULL url falling inside the window, the extraction aborts
at `r0` (NULL pointer passed to `std::string` construction — undefined
behavior, a crash) after emitting exactly the matching rows of `pre`; the
malformed row is not silently skipped. -/
theorem extraction_crashes_at_null_url_row (env : StoreEnv) (t w : Int) (fs : FileSys)
    (pre post : List Row) (r0 : Row) (hok : storeOk env)
    (hsplit : queryRows env.rows = pre ++ r0 :: post)
    (hpre : ∀ r ∈ pre, r.url ≠ none) (h0 : r0.url = none)
    (hm : matchesWindow t w r0 = true) :
    (PrintUrlsFromDatabase env t w fs).crashed = true ∧
      (PrintUrlsFromDatabase env t w fs).entries =
        (pre.filter (matchesWindow t w)).map emitLine := by
  obtain ⟨h1, h2, h3, h4, h5⟩ := hok
  simp [PrintUrlsFromDatabase, CopyDatabaseToTemp_ok env fs ⟨h1, h2, h3, h4, h5⟩, h4, h5,
    hsplit, processRows_crash t w pre post r0 hpre h0 hm]

theorem extraction_crashes_at_null_url_row_witness :
    (PrintUrlsFromDatabase c2wEnv 1000 600 c2Fs).crashed = true ∧
      (PrintUrlsFromDatabase c2wEnv 1000 600 c2Fs).entries =
        (([c2wGoodRow]).filter (matchesWindow 1000 600)).map emitLine :=
  extraction_crashes_at_null_url_row c2wEnv 1000 600 c2Fs [c2wGoodRow] [] c2wNullRow
    (by decide) (by decide) (by decide) (by decide) (by decide)

/-- C3 counterexample: with reference time 1704068340 and window 600, the
encoded timestamp 13348541340500000 decodes to exactly the boundary
(difference equal to the window), yet the record one microsecond older
(encoded 13348541340499999) truncates to the same second and is still
included, contradicting the claimed exclusion. -/
theorem boundary_minus_one_microsecond_not_excluded :
    1704068340 - ConvertWebKitToUnixTime 13348541340500000 = 600 ∧
      matchesWindow 1704068340 600 ⟨some "https://example.com", 13348541340500000 - 1⟩ =
        true :=
  ⟨by decide, by decide⟩

/-- C3 (amended): a record decoding exactly to the window boundary is
included (inclusive upper bound); the record one microsecond older is
excluded precisely when the boundary encoding is a whole multiple of
1,000,000 microseconds — otherwise the older encoding truncates to the
same second and is also included. -/
theorem window_boundary_truncation (t w ts : Int) (u : Option String) (hpos : 0 < ts)
    (hb : t - ConvertWebKitToUnixTime ts = w) :
    matchesWindow t w ⟨u, ts⟩ = true ∧
      (ts % 1000000 = 0 → matchesWindow t w ⟨u, ts - 1⟩ = false) ∧
      (ts % 1000000 ≠ 0 → matchesWindow t w ⟨u, ts - 1⟩ = true) := by
  have e1 : Int.tdiv ts 1000000 = ts / 1000000 := tdiv_1000000_eq_ediv ts (le_of_lt hpos)
  have e2 : Int.tdiv (ts - 1) 1000000 = (ts - 1) / 1000000 :=
    tdiv_1000000_eq_ediv (ts - 1) (by omega)
  simp only [ConvertWebKitToUnixTime, e1] at hb
  refine ⟨?_, ?_, ?_⟩
  · simp only [matchesWindow, ConvertWebKitToUnixTime, e1, decide_eq_true_eq]
    omega
  · intro h
    simp only [matchesWindow, ConvertWebKitToUnixTime, e2, decide_eq_false_iff_not, not_le]
    omega
  · intro h
    simp only [matchesWindow, ConvertWebKitToUnixTime, e2, decide_eq_true_eq]
    omega

theorem window_boundary_truncation_witness :
    matchesWindow 1704068340 600 ⟨some "x", 13348541340000000⟩ = true ∧
      matchesWindow 1704068340 600 ⟨some "x", 13348541340000000 - 1⟩ = false :=
  ⟨(window_boundary_truncation 1704068340 600 13348541340000000 (some "x") (by decide)
      (by decide)).1,
    (window_boundary_truncation 1704068340 600 13348541340000000 (some "x") (by decide)
      (by decide)).2.1 (by decide)⟩

/-- C4: the recency predicate is the single-sided comparison
`referenceTime − decode(visitTimestamp) ≤ windowDuration`: a successful
extraction emits exactly the query rows satisfying it, a row matches iff
the inequality holds, and a visit decoding to a time at or after the
reference time (non-positive difference) always matches a non-negative
window. -/
theorem recency_predicate_single_sided (env : StoreEnv) (t w : Int) (fs : FileSys)
    (hok : storeOk env) (hwf : ∀ r ∈ env.rows, r.url ≠ none) (hw : 0 ≤ w) :
    (PrintUrlsFromDatabase env t w fs).entries =
        ((queryRows env.rows).filter (matchesWindow t w)).map emitLine ∧
      (∀ r : Row, matchesWindow t w r = true ↔
        t - ConvertWebKitToUnixTime r.visitTime ≤ w) ∧
      (∀ r : Row, t ≤ ConvertWebKitToUnixTime r.visitTime → matchesWindow t w r = true) := by
  refine ⟨?_, ?_, ?_⟩
  · rw [PrintUrls_success env t w fs hok hwf]
  · intro r
    simp [matchesWindow]
  · intro r h
    simp only [matchesWindow, decide_eq_true_eq]
    omega

theorem recency_predicate_single_sided_witness :
    (PrintUrlsFromDatabase c6OkEnv 1000 600 c2Fs).entries =
      ((queryRows c6OkEnv.rows).filter (matchesWindow 1000 600)).map emitLine :=
  (recency_predicate_single_sided c6OkEnv 1000 600 c2Fs (by decide) (by decide)
    (by decide)).1

/-- C5: the decoder divides the int64 microsecond count by 1,000,000 with
C truncation toward zero and subtracts the epoch offset 11,644,473,600:
for an input of magnitude `q` whole seconds plus `r` fractional
microseconds, the fraction is discarded (never rounded), in the positive
and in the negative case alike. -/
theorem webkit_decode_truncates_toward_zero (q r : Int) (hq : 0 ≤ q) (hr : 0 ≤ r)
    (hr2 : r < 1000000) :
    ConvertWebKitToUnixTime (q * 1000000 + r) = q - 11644473600 ∧
      ConvertWebKitToUnixTime (-(q * 1000000 + r)) = -q - 11644473600 := by
  have e1 : Int.tdiv (q * 1000000 + r) 1000000 = (q * 1000000 + r) / 1000000 :=
    tdiv_1000000_eq_ediv _ (by omega)
  have hdiv : (q * 1000000 + r) / 1000000 = q := by omega
  constructor
  · simp only [ConvertWebKitToUnixTime, e1, hdiv]
  · simp only [ConvertWebKitToUnixTime, Int.neg_tdiv, e1, hdiv]

theorem webkit_decode_truncates_toward_zero_witness :
    ConvertWebKitToUnixTime (5 * 1000000 + 999999) = 5 - 11644473600 ∧
      ConvertWebKitToUnixTime (-(5 * 1000000 + 999999)) = -5 - 11644473600 :=
  webkit_decode_truncates_toward_zero 5 999999 (by decide) (by decide) (by decide)

/-- C6: when the first (Chrome) extraction fails at any stage, `wmain`
still attempts the second (Edge) store, whose result is exactly the
standalone run of its own environment; a valid second store has its
entries fully emitted, while the failing store produces no entries and at
least one diagnostic. -/
theorem independent_store_isolation (w : WorldEnv) (fsC fsE : FileSys)
    (hprof : w.profilePath ≠ "") (hfail : storeFails w.chromeEnv)
    (hok : storeOk w.edgeEnv) (hwf : ∀ r ∈ w.edgeEnv.rows, r.url ≠ none) :
    (wmain w fsC fsE).edge =
        some (PrintUrlsFromDatabase w.edgeEnv w.currentTime (10 * 60) fsE) ∧
      (PrintUrlsFromDatabase w.edgeEnv w.currentTime (10 * 60) fsE).entries =
        ((queryRows w.edgeEnv.rows).filter
          (matchesWindow w.currentTime (10 * 60))).map emitLine ∧
      (PrintUrlsFromDatabase w.chromeEnv w.currentTime (10 * 60) fsC).entries = [] ∧
      (PrintUrlsFromDatabase w.chromeEnv w.currentTime (10 * 60) fsC).diag ≠ [] := by
  have hc := run_not_ok w.chromeEnv w.currentTime (10 * 60) fsC (storeFails_not_ok hfail)
  have he := PrintUrls_success w.edgeEnv w.currentTime (10 * 60) fsE hok hwf
  refine ⟨?_, ?_, hc.2.1, hc.2.2⟩
  · simp only [wmain, if_neg hprof, hc.1, Bool.false_eq_true, if_false]
    split <;> rfl
  · rw [he]

theorem independent_store_isolation_witness :
    (wmain c6World c2Fs c2Fs).edge =
        some (PrintUrlsFromDatabase c6World.edgeEnv c6World.currentTime (10 * 60) c2Fs) ∧
      (PrintUrlsFromDatabase c6World.edgeEnv c6World.currentTime (10 * 60) c2Fs).entries =
        ((queryRows c6World.edgeEnv.rows).filter
          (matchesWindow c6World.currentTime (10 * 60))).map emitLine ∧
      (PrintUrlsFromDatabase c6World.chromeEnv c6World.currentTime (10 * 60) c2Fs).entries =
        [] :=
  ⟨(independent_store_isolation c6World c2Fs c2Fs (by decide) (by decide) (by decide)
      (by decide)).1,
    (independent_store_isolation c6World c2Fs c2Fs (by decide) (by decide) (by decide)
      (by decide)).2.1,
    (independent_store_isolation c6World c2Fs c2Fs (by decide) (by decide) (by decide)
      (by decide)).2.2.1⟩

/-- C7: the time formatter is total: exactly the inputs `gmtime_s` cannot
represent (outside 0..`maxTime64`) yield the printable sentinel
`"Invalid time"`; every representable input renders as the 19-character
UTC string `YYYY-MM-DD HH:MM:SS` (checked concretely on the spec's
scenario time); formatting never aborts the enclosing extraction. -/
theorem format_utc_total_with_sentinel (t : Int) :
    ((t < 0 ∨ maxTime64 < t) ↔ FormatUnixTimeToUTC t = "Invalid time") ∧
      (0 ≤ t → t ≤ maxTime64 → (FormatUnixTimeToUTC t).length = 19) ∧
      FormatUnixTimeToUTC 1704067740 = "2024-01-01 00:09:00" ∧
      FormatUnixTimeToUTC (-1) = "Invalid time" ∧
      FormatUnixTimeToUTC (maxTime64 + 1) = "Invalid time" := by
  have hlen : ∀ s : Int, 0 ≤ s → s ≤ maxTime64 → (FormatUnixTimeToUTC s).length = 19 := by
    intro s h1 h2
    have hcond : ¬(s < 0 ∨ maxTime64 < s) := by omega
    simp only [FormatUnixTimeToUTC, if_neg hcond]
    exact renderUTC_length _ _ _ _ _ _
  refine ⟨⟨fun h => by simp only [FormatUnixTimeToUTC, if_pos h], fun h => ?_⟩,
    hlen t, by decide, by decide, by decide⟩
  by_contra hc
  have h19 := hlen t (by omega) (by omega)
  rw [h] at h19
  exact absurd h19 (by decide)

theorem format_utc_total_with_sentinel_witness :
    (FormatUnixTimeToUTC 0).length = 19 ∧ FormatUnixTimeToUTC (-1) = "Invalid time" :=
  ⟨(format_utc_total_with_sentinel 0).2.1 (by decide) (by decide),
    (format_utc_total_with_sentinel (-1)).1.mp (by decide)⟩

/-- C8: a successful extraction's entries are the emitted lines of the
query's rows (the store's native `ORDER BY v.visit_time DESC` order)
restricted to the window — the extractor performs no re-sorting of its
own — the filtered row sequence is pairwise descending in the encoded
visit timestamp, and every emitted line has the shape
`URL: <decoded-url>, Visit Time (UTC): <formatted-time>`. -/
theorem entries_descending_native_order (env : StoreEnv) (t w : Int) (fs : FileSys)
    (hok : storeOk env) (hwf : ∀ r ∈ env.rows, r.url ≠ none) :
    (PrintUrlsFromDatabase env t w fs).entries =
        ((queryRows env.rows).filter (matchesWindow t w)).map emitLine ∧
      List.Pairwise (fun a b => b.visitTime ≤ a.visitTime)
        ((queryRows env.rows).filter (matchesWindow t w)) ∧
      ∀ r ∈ (queryRows env.rows).filter (matchesWindow t w),
        emitLine r = "URL: " ++ ConvertUtf8ToWide (r.url.getD "") ++
          ", Visit Time (UTC): " ++
          FormatUnixTimeToUTC (ConvertWebKitToUnixTime r.visitTime) := by
  refine ⟨?_, ?_, fun r _ => rfl⟩
  · rw [PrintUrls_success env t w fs hok hwf]
  · exact List.Pairwise.filter _ (queryRows_sorted env.rows)

theorem entries_descending_native_order_witness :
    List.Pairwise (fun a b => b.visitTime ≤ a.visitTime)
      ((queryRows c6OkEnv.rows).filter (matchesWindow 2000 600)) :=
  (entries_descending_native_order c6OkEnv 2000 600 c2Fs (by decide) (by decide)).2.1

/-- C9: neither the copy step nor a whole invocation mutates the source
store file: its content and its modification metadata are identical
before and after, on every control path — the copy reads the source and
writes only the temporary snapshot. -/
theorem source_file_never_mutated (env : StoreEnv) (t w : Int) (fs : FileSys) :
    ((CopyDatabaseToTemp env fs).1.sourceContent = fs.sourceContent ∧
        (CopyDatabaseToTemp env fs).1.sourceMTime = fs.sourceMTime) ∧
      (PrintUrlsFromDatabase env t w fs).fs.sourceContent = fs.sourceContent ∧
      (PrintUrlsFromDatabase env t w fs).fs.sourceMTime = fs.sourceMTime :=
  ⟨copy_source_inv env fs, run_source_inv env t w fs⟩

/-- C10: the exit status is 1 exactly when the user profile path cannot
be obtained; whenever it is obtained, both extractions are attempted in
order and the program returns 0 regardless of any copy, open or prepare
failure in either (the sole exception being the NULL-url undefined
behavior of the row loop, which never returns a status at all —
`exitCode = none` — hence also never returns 1). -/
theorem exit_status_profile_path (w : WorldEnv) (fsC fsE : FileSys) :
    ((wmain w fsC fsE).exitCode = some 1 ↔ w.profilePath = "") ∧
      ((∀ r ∈ w.chromeEnv.rows, r.url ≠ none) → (∀ r ∈ w.edgeEnv.rows, r.url ≠ none) →
        w.profilePath ≠ "" → (wmain w fsC fsE).exitCode = some 0) := by
  constructor
  · by_cases h : w.profilePath = ""
    · simp [wmain, h]
    · constructor
      · intro hc
        exfalso
        revert hc
        simp only [wmain, if_neg h]
        split
        · simp
        · split <;> simp
      · intro hc
        exact absurd hc h
  · intro hwfC hwfE hprof
    have h1 := run_no_crash w.chromeEnv w.currentTime 600 fsC hwfC
    have h2 := run_no_crash w.edgeEnv w.currentTime 600 fsE hwfE
    simp [wmain, hprof, h1, h2]

theorem exit_status_profile_path_witness :
    (wmain c6World c2Fs c2Fs).exitCode = some 0 :=
  (exit_status_profile_path c6World c2Fs c2Fs).2 (by decide) (by decide) (by decide)

end BrowsingHistory
